import Mathlib

/-!
Verification of the sklt swaybar status program (Go sources in src/sklt.go).
The development shallowly embeds the device/layout registry, the i3/Sway IPC
message framing, connection bootstrap and the status output loop, and settles
the specification claims against these embeddings.
-/

namespace Sklt

/-- Keyboard device record, from the Go struct kbdDev: current layout and the
intrusive doubly linked list references prevDev/nextDev. The empty string
plays the role of a nil reference, exactly as in the source. -/
structure kbdDev where
  layout : String
  prevDev : String
  nextDev : String
deriving DecidableEq

/-- Go map read with zero-value semantics: reading an absent key from a
map[string]kbdDev yields the zero kbdDev. -/
def mapGet (m : String → Option kbdDev) (id : String) : kbdDev :=
  (m id).getD ⟨"", "", ""⟩

/-- Registry state of the layout monitor (Go struct monitor, minus the socket
and channel handles): the device map, the tail pointer lastKbd, and the
last layout pushed to the status loop (prevLayout). A nil Go map is embedded
as the everywhere-none map: a nil kbds can only occur together with
lastKbd = "", where the early nil-return in del coincides with running the
body on an empty map, and set allocates before writing. -/
structure monitor where
  kbds : String → Option kbdDev
  lastKbd : String
  prevLayout : String

/-- Delete a keyboard from the list, from Go monitor.del (src/sklt.go:57).
Map reads after the delete(self.kbds, id) statement see the map without id;
the second neighbour update sees the first one, as in Go. -/
def monitor.del (self : monitor) (id : String) : monitor :=
  if id.length = 0 then self
  else
    let l1 := mapGet self.kbds id
    let k1 : String → Option kbdDev := fun x => if x = id then none else self.kbds x
    let k2 : String → Option kbdDev :=
      if 0 < l1.prevDev.length then
        fun x => if x = l1.prevDev then
          some { mapGet k1 l1.prevDev with nextDev := l1.nextDev } else k1 x
      else k1
    let k3 : String → Option kbdDev :=
      if 0 < l1.nextDev.length then
        fun x => if x = l1.nextDev then
          some { mapGet k2 l1.nextDev with prevDev := l1.prevDev } else k2 x
      else k2
    { self with
      kbds := k3,
      lastKbd := if self.lastKbd = id then l1.prevDev else self.lastKbd }

/-- Set a keyboard's layout, from Go monitor.set (src/sklt.go:82): an empty
layout deletes; an unchanged layout is a no-op; otherwise the record is
unlinked from its position (when not already the tail) and appended at the
tail, and lastKbd is moved to it. -/
def monitor.set (self : monitor) (id l : String) : monitor :=
  if l.length = 0 then self.del id
  else
    let l1 := mapGet self.kbds id
    if l1.layout = l then self
    else
      let l1 := { l1 with layout := l }
      if self.lastKbd ≠ id then
        let k1 : String → Option kbdDev :=
          if 0 < l1.prevDev.length then
            fun x => if x = l1.prevDev then
              some { mapGet self.kbds l1.prevDev with nextDev := l1.nextDev } else self.kbds x
          else self.kbds
        let k2 : String → Option kbdDev :=
          if 0 < l1.nextDev.length then
            fun x => if x = l1.nextDev then
              some { mapGet k1 l1.nextDev with prevDev := l1.prevDev } else k1 x
          else k1
        let l2 := { l1 with prevDev := self.lastKbd, nextDev := "" }
        { self with kbds := fun x => if x = id then some l2 else k2 x, lastKbd := id }
      else
        { self with kbds := fun x => if x = id then some l1 else self.kbds x }

/-- Layout surfaced to the status loop: self.kbds[self.lastKbd].layout
(src/sklt.go:167), with Go zero-value read when lastKbd is absent. -/
def currentLayout (m : monitor) : String :=
  (mapGet m.kbds m.lastKbd).layout

/-- Notification step at the bottom of watchLayouts (src/sklt.go:167):
after a message is processed, the current layout is compared with prevLayout;
if unchanged no notification is sent, otherwise prevLayout is updated and the
new layout is pushed on the channel. -/
def watchStep (m : monitor) : monitor × Option String :=
  let nl := currentLayout m
  if m.prevLayout = nl then (m, none)
  else ({ m with prevLayout := nl }, some nl)

/-- A registry operation: the two mutators of the device registry. -/
inductive Op where
  | set (id l : String)
  | del (id : String)

/-- Apply one registry operation. -/
def applyOp (m : monitor) : Op → monitor
  | Op.set id l => m.set id l
  | Op.del id => m.del id

/-- The initial monitor: empty (nil) map, empty tail pointer. -/
def monitor.init : monitor :=
  { kbds := fun _ => none, lastKbd := "", prevLayout := "" }

/-- Run a sequence of registry operations from the initial state. -/
def applyOps (ops : List Op) : monitor :=
  ops.foldl applyOp monitor.init

/-! ## IPC message framing (second source file, src/sklt.go:284) -/

/-- The six magic bytes of the protocol: the characters of i3-ipc
(var Magic, src/sklt.go:299). -/
def magicBytes : List Nat := [105, 51, 45, 105, 112, 99]

/-- Little-endian encoding of a uint32 into four bytes; a larger Nat is
truncated exactly as a Go uint32 conversion truncates. -/
def le32 (n : Nat) : List Nat :=
  [n % 256, n / 256 % 256, n / 65536 % 256, n / 16777216 % 256]

/-- Little-endian decoding of four bytes into a uint32 value, as binary.Read
decodes the Length and Type fields of MessageHeader. -/
def readLE32 : List Nat → Nat
  | [b0, b1, b2, b3] => b0 + 256 * b1 + 65536 * b2 + 16777216 * b3
  | _ => 0

/-- Error outcomes of ReadMessage: an io error from a short header read or
closed connection, the invalid-magic protocol error, or an error returned by
the message handler. -/
inductive ReadErr where
  | ioError
  | protocolError
  | handlerError (msg : String)
deriving DecidableEq

/-- Lift the handler's own result into the result of ReadMessage, which
returns the handler's error once the payload residue is drained. -/
def handlerOutcome : Except String Unit → Except ReadErr Unit
  | Except.ok _ => Except.ok ()
  | Except.error e => Except.error (ReadErr.handlerError e)

/-- Payload length declared by the header: bytes 6..9, little-endian
(field Length of MessageHeader). -/
def parsedLen (s : List Nat) : Nat :=
  readLE32 (List.take 4 (List.drop 6 s))

/-- Message type code declared by the header: bytes 10..13, little-endian
(field Type of MessageHeader). -/
def parsedType (s : List Nat) : Nat :=
  readLE32 (List.take 4 (List.drop 10 s))

/-- ReadMessage (src/sklt.go:322) on a byte stream. The stream is a byte
list; a handler is a function of the type code and the payload bytes made
visible by the io.LimitedReader, returning its result together with how many
payload bytes it consumed. binary.Read needs 14 bytes for the header and
fails with an io error otherwise (io.ReadFull semantics); a magic mismatch
is a protocol error with only the header consumed; otherwise the handler
runs on exactly the declared payload and io.Copy to ioutil.Discard drains
whatever part of the limited reader the handler left unread. -/
def ReadMessage (s : List Nat) (f : Nat → List Nat → Except String Unit × Nat) :
    Except ReadErr Unit × List Nat :=
  if s.length < 14 then (Except.error ReadErr.ioError, List.drop 14 s)
  else if List.take 6 s ≠ magicBytes then (Except.error ReadErr.protocolError, List.drop 14 s)
  else
    let len := parsedLen s
    let t := parsedType s
    let rest := List.drop 14 s
    let payload := List.take len rest
    let r := f t payload
    let consumed := min r.2 payload.length
    let afterHandler := List.drop consumed rest
    (handlerOutcome r.1, List.drop (payload.length - consumed) afterHandler)

/-- WriteJSONMessage (src/sklt.go:346) emits the 14-byte header (magic,
little-endian uint32 payload length, little-endian uint32 type) followed by
the JSON payload bytes; JSON serialization itself is the Go standard
library, so the payload is taken here as the already-encoded byte list. -/
def WriteJSONMessage (t : Nat) (b : List Nat) : List Nat :=
  magicBytes ++ (le32 b.length ++ (le32 t ++ b))

/-! ## Connection bootstrap and main startup (src/sklt.go:366, 249) -/

/-- Errors of Connect: ErrNoIPC (the distinguished configuration error, whose
Go message reads Sway IPC socket path is unknown) and a dial failure. -/
inductive ConnectErr where
  | noIPC
  | dialFailed
deriving DecidableEq

/-- Connect (src/sklt.go:369): an empty path falls back to the SWAYSOCK
environment variable, modelled by the env argument; a still empty path
yields ErrNoIPC; otherwise net.Dial is attempted, modelled by the dial
function (none = dial error). -/
def Connect {C : Type} (path env : String) (dial : String → Option C) :
    Except ConnectErr C :=
  let path := if path.length = 0 then env else path
  if path.length = 0 then Except.error ConnectErr.noIPC
  else
    match dial path with
    | some c => Except.ok c
    | none => Except.error ConnectErr.dialFailed

/-- Startup outcome of main around the Connect call (src/sklt.go:249): a
non-ErrNoIPC error is fatal (os.Exit(1)); a connection starts the monitor
and the status line gets a layout slot; ErrNoIPC leaves m.s nil and the
program runs showing time only. -/
inductive MainMode where
  | fatalExit
  | timeOnly
  | withLayout
deriving DecidableEq

/-- Decision taken by main on the result of Connect with the empty explicit
path (src/sklt.go:249). -/
def mainStartupMode {C : Type} (env : String) (dial : String → Option C) : MainMode :=
  match Connect "" env dial with
  | Except.ok _ => MainMode.withLayout
  | Except.error ConnectErr.noIPC => MainMode.timeOnly
  | Except.error ConnectErr.dialFailed => MainMode.fatalExit

/-- Format string actually used by the status loop (src/sklt.go:254): a
space-led layout slot is added only when a connection exists, then a
newline is appended. -/
def statusFormat (mode : MainMode) (format : String) : String :=
  (if mode = MainMode.withLayout then " " ++ format else format) ++ "\n"

/-! ## Status loop output deduplication (src/sklt.go:269) -/

/-- One status-loop iteration on a freshly computed candidate string: the
candidate is written (one io.WriteString call, returned as some) exactly
when it differs byte for byte from the previously emitted string, and
prevStatus is updated to the emitted string. -/
def statusStep (prevStatus status : String) : Option String × String :=
  if status ≠ prevStatus then (some status, status) else (none, prevStatus)

/-! ## Registry invariants and their violations -/

/-- Every record in the map has an empty forward link. -/
def NextEmpty (m : monitor) : Prop :=
  ∀ id r, m.kbds id = some r → r.nextDev = ""

theorem mapGet_nextDev_empty {m : monitor} (h : NextEmpty m) (id : String) :
    (mapGet m.kbds id).nextDev = "" := by
  unfold mapGet
  cases hm : m.kbds id with
  | none => rfl
  | some r => simpa using h id r hm

theorem nextEmpty_del {m : monitor} (h : NextEmpty m) (id : String) :
    NextEmpty (m.del id) := by
  by_cases hid : id.length = 0
  · unfold monitor.del
    rw [if_pos hid]
    exact h
  · intro x r hr
    unfold monitor.del at hr
    rw [if_neg hid] at hr
    simp only [mapGet_nextDev_empty h id] at hr
    simp only [String.length_empty, lt_irrefl, if_false] at hr
    by_cases hp : 0 < (mapGet m.kbds id).prevDev.length
    · rw [if_pos hp] at hr
      by_cases hx : x = (mapGet m.kbds id).prevDev
      · rw [if_pos hx, Option.some.injEq] at hr
        rw [← hr]
      · rw [if_neg hx] at hr
        by_cases hxi : x = id
        · rw [if_pos hxi] at hr
          exact absurd hr (by simp)
        · rw [if_neg hxi] at hr
          exact h x r hr
    · rw [if_neg hp] at hr
      by_cases hxi : x = id
      · rw [if_pos hxi] at hr
        exact absurd hr (by simp)
      · rw [if_neg hxi] at hr
        exact h x r hr

theorem nextEmpty_set {m : monitor} (h : NextEmpty m) (id l : String) :
    NextEmpty (m.set id l) := by
  by_cases hl0 : l.length = 0
  · unfold monitor.set
    rw [if_pos hl0]
    exact nextEmpty_del h id
  · intro x r hr
    unfold monitor.set at hr
    rw [if_neg hl0] at hr
    by_cases hsame : (mapGet m.kbds id).layout = l
    · simp only [hsame, if_true] at hr
      exact h x r hr
    · simp only [hsame, if_false, mapGet_nextDev_empty h id] at hr
      simp only [String.length_empty, lt_irrefl, if_false] at hr
      by_cases hlast : m.lastKbd ≠ id
      · rw [if_pos hlast] at hr
        simp only at hr
        by_cases hxi : x = id
        · rw [if_pos hxi, Option.some.injEq] at hr
          rw [← hr]
        · rw [if_neg hxi] at hr
          by_cases hp : 0 < (mapGet m.kbds id).prevDev.length
          · rw [if_pos hp] at hr
            by_cases hx : x = (mapGet m.kbds id).prevDev
            · rw [if_pos hx, Option.some.injEq] at hr
              rw [← hr]
            · rw [if_neg hx] at hr
              exact h x r hr
          · rw [if_neg hp] at hr
            exact h x r hr
      · rw [if_neg hlast] at hr
        simp only at hr
        by_cases hxi : x = id
        · rw [if_pos hxi, Option.some.injEq] at hr
          rw [← hr]
        · rw [if_neg hxi] at hr
          exact h x r hr

theorem nextEmpty_applyOp {m : monitor} (h : NextEmpty m) (op : Op) :
    NextEmpty (applyOp m op) := by
  cases op with
  | set id l => exact nextEmpty_set h id l
  | del id => exact nextEmpty_del h id

theorem nextEmpty_foldl (ops : List Op) (m : monitor) (h : NextEmpty m) :
    NextEmpty (ops.foldl applyOp m) := by
  induction ops generalizing m with
  | nil => exact h
  | cons op ops ih => exact ih _ (nextEmpty_applyOp h op)

/-- C10: after every sequence of set and delete operations starting from the
empty registry, the nextDev field of every record present in the map is the
empty string: the forward links of the nominally doubly linked recency list
are never populated, so recency ordering is carried only by the prevDev
fields and the lastKbd tail pointer. -/
theorem nextDev_always_empty (ops : List Op) (id : String) (r : kbdDev)
    (h : (applyOps ops).kbds id = some r) : r.nextDev = "" := by
  have hinit : NextEmpty monitor.init := by
    intro x s hs
    simp [monitor.init] at hs
  exact nextEmpty_foldl ops monitor.init hinit id r h

/-- C10 witness: the single-set trace produces record us for device a, whose
nextDev the theorem forces to be empty. -/
theorem nextDev_always_empty_witness : (⟨"us", "", ""⟩ : kbdDev).nextDev = "" :=
  nextDev_always_empty [Op.set "a" "us"] "a" ⟨"us", "", ""⟩ (by decide)

/-- C1: evaluating the code on the trace set a us; set b de; set c fr;
del b; del c from the empty registry: device a is still present with
layout us (and it is the only device ever given a non-empty layout that was
not deleted), yet currentLayout returns the empty string, because del c
read the dangling prevDev reference left by del b and moved lastKbd to the
deleted device b. The claim requires us here. -/
theorem currentLayout_drops_remaining_device :
    currentLayout (applyOps [Op.set "a" "us", Op.set "b" "de", Op.set "c" "fr",
      Op.del "b", Op.del "c"]) = "" ∧
    (applyOps [Op.set "a" "us", Op.set "b" "de", Op.set "c" "fr",
      Op.del "b", Op.del "c"]).kbds "a" = some ⟨"us", "", ""⟩ ∧
    ("us" : String) ≠ "" := by
  decide

/-- C2: after set a us; set b de the record of b has prevDev a while the
record of a still has an empty nextDev, so the symmetry half "B.prevDev
names A implies A.nextDev names B" of the claimed invariant is violated
already in a two-operation trace: the code never writes a forward link. -/
theorem forward_links_not_symmetric :
    (applyOps [Op.set "a" "us", Op.set "b" "de"]).kbds "b"
      = some ⟨"de", "a", ""⟩ ∧
    (applyOps [Op.set "a" "us", Op.set "b" "de"]).kbds "a"
      = some ⟨"us", "", ""⟩ ∧
    ("" : String) ≠ "b" := by
  decide

/-- C3: on the trace set a us; set b de; set c fr; del b; del c, device b is
gone from the map after del b, but del c re-inserts key b (as a ghost record
with empty layout) and leaves lastKbd = b, a device that had been deleted:
delete does re-insert an id, violating the claim. -/
theorem del_reinserts_deleted_id :
    (applyOps [Op.set "a" "us", Op.set "b" "de", Op.set "c" "fr",
      Op.del "b"]).kbds "b" = none ∧
    (applyOps [Op.set "a" "us", Op.set "b" "de", Op.set "c" "fr",
      Op.del "b", Op.del "c"]).kbds "b" = some ⟨"", "", ""⟩ ∧
    (applyOps [Op.set "a" "us", Op.set "b" "de", Op.set "c" "fr",
      Op.del "b", Op.del "c"]).lastKbd = "b" := by
  decide

/-- C7: a set whose layout equals the stored layout of the device is a
complete no-op on the registry, produces no notification in the watch loop
step (given the loop invariant that prevLayout equals the current layout at
the top of each iteration), and a second identical set behaves as the
first. -/
theorem set_unchanged_layout_noop (m : monitor) (id l : String) (hl : l ≠ "")
    (hlay : (mapGet m.kbds id).layout = l)
    (hinv : m.prevLayout = currentLayout m) :
    m.set id l = m ∧ (watchStep (m.set id l)).2 = none ∧
      (m.set id l).set id l = m.set id l := by
  have hlen : ¬ l.length = 0 := by
    cases l with
    | mk data =>
      cases data with
      | nil => exact absurd rfl hl
      | cons a as => simp [String.length]
  have h1 : m.set id l = m := by
    unfold monitor.set
    rw [if_neg hlen]
    simp only [hlay, if_true]
  refine ⟨h1, ?_, ?_⟩
  · rw [h1]
    unfold watchStep
    rw [if_pos hinv]
  · rw [h1]
    exact h1

/-- C7 witness: after set a us and one watch-loop notification step, a
repeated set a us changes nothing and notifies nothing. -/
theorem set_unchanged_layout_noop_witness :
    ((watchStep (applyOps [Op.set "a" "us"])).1).set "a" "us"
      = (watchStep (applyOps [Op.set "a" "us"])).1 ∧
    (watchStep (((watchStep (applyOps [Op.set "a" "us"])).1).set "a" "us")).2 = none ∧
    (((watchStep (applyOps [Op.set "a" "us"])).1).set "a" "us").set "a" "us"
      = ((watchStep (applyOps [Op.set "a" "us"])).1).set "a" "us" :=
  set_unchanged_layout_noop (watchStep (applyOps [Op.set "a" "us"])).1 "a" "us"
    (by decide) (by decide) (by decide)

/-- C8: with an empty explicit path, Connect resolves the path from the
environment value; it returns ErrNoIPC exactly when that value is empty, and
exactly then main keeps running in the time-only mode whose status format
has no layout slot; a dial failure on the non-empty resolved path makes
main exit fatally. -/
theorem connect_no_ipc_time_only {C : Type} (env : String)
    (dial : String → Option C) (format : String) :
    (Connect "" env dial = Except.error ConnectErr.noIPC ↔ env.length = 0) ∧
    (env.length ≠ 0 → Connect "" env dial =
      (match dial env with
       | some c => Except.ok c
       | none => Except.error ConnectErr.dialFailed)) ∧
    (mainStartupMode env dial = MainMode.timeOnly ↔ env.length = 0) ∧
    (env.length ≠ 0 → dial env = none →
      mainStartupMode env dial = MainMode.fatalExit) ∧
    (statusFormat MainMode.timeOnly format = format ++ "\n" ∧
      statusFormat MainMode.withLayout format = " " ++ format ++ "\n") := by
  by_cases h : env.length = 0
  · simp [Connect, mainStartupMode, statusFormat, h]
  · cases hd : dial env with
    | none => simp [Connect, mainStartupMode, statusFormat, h, hd]
    | some c => simp [Connect, mainStartupMode, statusFormat, h, hd]

/-- C8 witness: an empty environment value yields ErrNoIPC, and a failing
dial on a configured path is fatal. -/
theorem connect_no_ipc_time_only_witness :
    Connect "" "" (fun _ => (none : Option Nat)) = Except.error ConnectErr.noIPC ∧
    mainStartupMode "sock" (fun _ => (none : Option Nat)) = MainMode.fatalExit :=
  ⟨(connect_no_ipc_time_only "" (fun _ => (none : Option Nat)) "f").1.mpr (by decide),
   (connect_no_ipc_time_only "sock" (fun _ => (none : Option Nat)) "f").2.2.2.1
     (by decide) rfl⟩

/-- C9 counterexample: three iterations all computing the candidate x with a
newline; the first writes it, after which the pair formed by the second and
the third iterations computes byte-for-byte identical candidates yet
performs zero writes, not exactly one as the claim states. -/
theorem status_dedup_pair_zero_writes :
    (statusStep ((statusStep "" "x\n").2) "x\n").1 = none ∧
    (statusStep ((statusStep ((statusStep "" "x\n").2) "x\n").2) "x\n").1 = none := by
  decide

/-- C9 amended: across a pair of consecutive iterations with identical
candidates the second is always suppressed, and the pair performs exactly
one write precisely when the candidate differs from the previously emitted
string (so at most one write in every case). -/
theorem status_dedup_second_suppressed (prev c : String) :
    ((statusStep prev c).1 = some c ↔ c ≠ prev) ∧
    ((statusStep prev c).1 = none ↔ c = prev) ∧
    (statusStep (statusStep prev c).2 c).1 = none ∧
    (statusStep (statusStep prev c).2 c).2 = (statusStep prev c).2 := by
  unfold statusStep
  by_cases h : c = prev
  · simp [h]
  · simp [h]

/-! ## IPC framing theorems -/

theorem readLE32_le32 (n : Nat) : readLE32 (le32 n) = n % 4294967296 := by
  simp only [readLE32, le32]
  omega

/-- Core framing fact shared by the round-trip and alignment theorems: on a
stream with a valid magic and at least the declared payload available, the
result of ReadMessage is the handler outcome on exactly the declared type
and declared payload bytes, and exactly the 14-byte header plus the declared
payload is consumed, whatever the handler consumed or returned. -/
theorem ReadMessage_frame_eq (s : List Nat)
    (f : Nat → List Nat → Except String Unit × Nat)
    (hm : List.take 6 s = magicBytes) (hl : 14 + parsedLen s ≤ s.length) :
    ReadMessage s f =
      (handlerOutcome (f (parsedType s) (List.take (parsedLen s) (List.drop 14 s))).1,
       List.drop (14 + parsedLen s) s) := by
  have h14 : ¬ s.length < 14 := by omega
  have hmagic : ¬ (List.take 6 s ≠ magicBytes) := by simp [hm]
  have hplen : (List.take (parsedLen s) (List.drop 14 s)).length = parsedLen s := by
    rw [List.length_take, List.length_drop]
    omega
  unfold ReadMessage
  rw [if_neg h14, if_neg hmagic]
  simp only []
  rw [List.drop_drop, List.drop_drop]
  generalize (f (parsedType s) (List.take (parsedLen s) (List.drop 14 s))).2 = n
  congr 2
  omega

/-- C5: on a stream whose header is valid and whose declared payload of
length L is fully available, one ReadMessage call consumes exactly 14 + L
bytes for every handler, whether it errors or under-consumes the payload
reader; the handler is invoked on exactly the L declared payload bytes, so
it can never see past the declared payload, and unread payload bytes are
drained before ReadMessage returns. -/
theorem readMessage_consumes_exact_frame (s : List Nat)
    (f : Nat → List Nat → Except String Unit × Nat)
    (hm : List.take 6 s = magicBytes) (hl : 14 + parsedLen s ≤ s.length) :
    ReadMessage s f =
      (handlerOutcome (f (parsedType s) (List.take (parsedLen s) (List.drop 14 s))).1,
       List.drop (14 + parsedLen s) s) ∧
    (List.take (parsedLen s) (List.drop 14 s)).length = parsedLen s := by
  refine ⟨ReadMessage_frame_eq s f hm hl, ?_⟩
  rw [List.length_take, List.length_drop]
  omega

/-- C5 witness: a frame with declared length 2 followed by one extra byte;
an under-consuming successful handler still leaves the stream aligned right
after the two payload bytes. -/
theorem readMessage_consumes_exact_frame_witness :
    ReadMessage [105, 51, 45, 105, 112, 99, 2, 0, 0, 0, 5, 0, 0, 0, 10, 20, 30]
      (fun _ _ => (Except.ok (), 0)) = (Except.ok (), [30]) := by
  have h := readMessage_consumes_exact_frame
    [105, 51, 45, 105, 112, 99, 2, 0, 0, 0, 5, 0, 0, 0, 10, 20, 30]
    (fun _ _ => (Except.ok (), 0)) (by decide) (by decide)
  rw [h.1]
  exact rfl

theorem write_take6 (t : Nat) (b : List Nat) :
    List.take 6 (WriteJSONMessage t b) = magicBytes := rfl

theorem write_drop14 (t : Nat) (b : List Nat) :
    List.drop 14 (WriteJSONMessage t b) = b := rfl

theorem write_length (t : Nat) (b : List Nat) :
    (WriteJSONMessage t b).length = 14 + b.length := by
  simp [WriteJSONMessage, magicBytes, le32]
  omega

theorem write_parsedLen (t : Nat) (b : List Nat) :
    parsedLen (WriteJSONMessage t b) = b.length % 4294967296 := by
  have h : List.take 4 (List.drop 6 (WriteJSONMessage t b)) = le32 b.length := rfl
  rw [parsedLen, h, readLE32_le32]

theorem write_parsedType (t : Nat) (b : List Nat) :
    parsedType (WriteJSONMessage t b) = t % 4294967296 := by
  have h : List.take 4 (List.drop 10 (WriteJSONMessage t b)) = le32 t := rfl
  rw [parsedType, h, readLE32_le32]

/-- C4: for every message type code below 2^32 and every JSON-serializable
value, here an abstract value with its serializer enc and deserializer dec
standing for the Go standard library encoder (hypothesis hdec is the
library round trip), encoding with WriteJSONMessage and decoding the
resulting bytes with ReadMessage hands the handler the same type code and
exactly the payload bytes, which decode back to the value; when the handler
succeeds ReadMessage returns without error, with the whole message
consumed. -/
theorem writeJSON_readMessage_roundtrip {α : Type} (enc : α → List Nat)
    (dec : List Nat → Option α) (v : α) (t : Nat)
    (f : Nat → List Nat → Except String Unit × Nat)
    (hdec : dec (enc v) = some v) (ht : t < 4294967296)
    (hb : (enc v).length < 4294967296) :
    ReadMessage (WriteJSONMessage t (enc v)) f =
      (handlerOutcome (f t (enc v)).1, []) ∧
    dec (enc v) = some v := by
  refine ⟨?_, hdec⟩
  have hpl : parsedLen (WriteJSONMessage t (enc v)) = (enc v).length := by
    rw [write_parsedLen, Nat.mod_eq_of_lt hb]
  have hpt : parsedType (WriteJSONMessage t (enc v)) = t := by
    rw [write_parsedType, Nat.mod_eq_of_lt ht]
  have hfr := ReadMessage_frame_eq (WriteJSONMessage t (enc v)) f
    (write_take6 t (enc v))
    (by rw [hpl, write_length])
  rw [hfr, hpl, hpt, write_drop14, List.take_length]
  refine Prod.ext rfl ?_
  exact List.drop_eq_nil_of_le (by rw [write_length])

/-- C4 witness: the one-byte codec enc n = the singleton list, dec = head,
value 5, type code 2 (SUBSCRIBE), with a succeeding handler. -/
theorem writeJSON_readMessage_roundtrip_witness :
    ReadMessage (WriteJSONMessage 2 [5]) (fun _ _ => (Except.ok (), 1)) =
      (Except.ok (), []) ∧ [5].head? = some 5 := by
  have h := writeJSON_readMessage_roundtrip (fun n : Nat => [n]) List.head? 5 2
    (fun _ _ => (Except.ok (), 1)) rfl (by decide) (by decide)
  exact h

/-- C6: when the stream offers at least a full 14-byte header whose magic
field is not i3-ipc, ReadMessage fails with the protocol error having
consumed exactly the header and no payload, and the result is independent
of the handler, which is never invoked; on a stream shorter than a header
(a short read or closed connection) it instead yields the io error. -/
theorem readMessage_bad_magic (s : List Nat)
    (f g : Nat → List Nat → Except String Unit × Nat)
    (h14 : 14 ≤ s.length) (hm : List.take 6 s ≠ magicBytes) :
    ReadMessage s f = (Except.error ReadErr.protocolError, List.drop 14 s) ∧
    ReadMessage s f = ReadMessage s g ∧
    (∀ u : List Nat, u.length < 14 →
      ReadMessage u f = (Except.error ReadErr.ioError, List.drop 14 u)) := by
  have h14x : ¬ s.length < 14 := by omega
  refine ⟨?_, ?_, ?_⟩
  · unfold ReadMessage
    rw [if_neg h14x, if_pos hm]
  · unfold ReadMessage
    rw [if_neg h14x, if_pos hm, if_neg h14x, if_pos hm]
  · intro u hu
    unfold ReadMessage
    rw [if_pos hu]

/-- C6 witness: fourteen zero bytes are a full header with a wrong magic and
produce the protocol error with nothing but the header consumed; a single
byte produces the io error. -/
theorem readMessage_bad_magic_witness :
    ReadMessage [0, 0, 0, 0, 0, 0, 0, 0, 0, 0, 0, 0, 0, 0]
      (fun _ _ => (Except.ok (), 0)) = (Except.error ReadErr.protocolError, []) ∧
    ReadMessage [7] (fun _ _ => (Except.ok (), 0))
      = (Except.error ReadErr.ioError, []) := by
  have h := readMessage_bad_magic [0, 0, 0, 0, 0, 0, 0, 0, 0, 0, 0, 0, 0, 0]
    (fun _ _ => (Except.ok (), 0)) (fun _ _ => (Except.ok (), 0))
    (by decide) (by decide)
  exact ⟨h.1, h.2.2 [7] (by decide)⟩

end Sklt
